import Mathlib

/-!
# Critical Fantasy Damage Calculator — verification development

Shallow embedding of `app.py` (class `DamageCalculator`, the weapon/equipment
catalogs, and the `/optimize_advanced` search) in Lean 4.  Python floats are
modelled by exact rationals `ℚ`; decimal literals below denote the same
decimal constants the source writes.  Python dictionaries holding item
definitions are modelled by structures with `Option` fields (a missing
dictionary key is `none`), and the catalogs by finite association lists with
a `find?`-based lookup, mirroring `dict.get(key, default)`.

The resolver `calculate_damage` is written as a composition of named stage
functions, each transcribing a contiguous region of the source; the final
record `CalcResult` collects every numeric the source's result dictionary
exposes (unrounded, except `effectiveMultiplier` which the source rounds in
place).  One deliberate totalisation: the source tallies set pieces in a
fixed-key dictionary (`set_counts`), which would raise `KeyError` for a set
key outside its eight entries; here the tally is a count over the equipment
list per key, which agrees with the source on every catalog whose set keys
lie among the eight (true of the shipped catalogs and of every catalog used
below).
-/

namespace CFC

/-- Raw per-item stat block (`stats` dictionary of an item definition);
`none` models an absent key. -/
structure Stats where
  atkMin : Option ℚ := none
  atkMax : Option ℚ := none
  magic : Option ℚ := none
  critChance : Option ℚ := none
  critDamage : Option ℚ := none
  health : Option ℚ := none
  shield : Option ℚ := none
  deriving DecidableEq, Repr

/-- `special_effects` dictionary of an item definition. -/
structure SpecialEffects where
  burnChance : Option ℚ := none
  poisonChance : Option ℚ := none
  bleedChance : Option ℚ := none
  dotBonus : Option ℚ := none
  doubleDamageChance : Option ℚ := none
  damageMultiplier : Option ℚ := none
  freezeChance : Option ℚ := none
  bloodButcher : Bool := false
  deriving DecidableEq, Repr

/-- One `EQUIPMENT_DB` entry (name/tier strings carry no behavior and are
omitted). -/
structure EquipDef where
  stats : Stats
  specialEffects : SpecialEffects := {}
  setKey : Option String := none
  levelReq : ℕ
  deriving DecidableEq, Repr

/-- One `WEAPON_DB` entry. -/
structure WeaponDef where
  wtype : String
  stats : Stats
  setKey : Option String := none
  levelReq : ℕ
  deriving DecidableEq, Repr

/-- Catalogs as lookup functions (`DB.get(id)`). -/
abbrev EquipCatalog := String → Option EquipDef
abbrev WeaponCatalog := String → Option WeaponDef

/-- Output of `calculate_equipment_bonus`. -/
structure Bonus where
  atkMin : ℚ
  atkMax : ℚ
  magic : ℚ
  critChance : ℚ
  critDamage : ℚ
  health : ℚ
  shield : ℚ
  deriving DecidableEq, Repr

/-- `DamageCalculator.calculate_equipment_bonus`: when a paired
`atk_min`/`atk_max` drop range is present, contribute `mid·0.85` to min and
`mid·1.25` to max where `mid` is the range midpoint; all other stats pass
through (absent keys contribute 0). -/
def calculate_equipment_bonus (s : Stats) : Bonus :=
  let pair : ℚ × ℚ :=
    match s.atkMin, s.atkMax with
    | some dropMin, some dropMax =>
        let middle := (dropMin + dropMax) / 2
        (middle * 0.85, middle * 1.25)
    | _, _ => (0, 0)
  { atkMin := pair.1
    atkMax := pair.2
    magic := s.magic.getD 0
    critChance := s.critChance.getD 0
    critDamage := s.critDamage.getD 0
    health := s.health.getD 0
    shield := s.shield.getD 0 }

/-- Stats of an equipment id via the catalog; an unknown id behaves as the
empty dictionary (`EQUIPMENT_DB.get(eq, {})`). -/
def equipStats (E : EquipCatalog) (id : String) : Stats :=
  match E id with
  | some d => d.stats
  | none => {}

/-- Special-effects of an equipment id; unknown id gives the empty
dictionary. -/
def equipEffects (E : EquipCatalog) (id : String) : SpecialEffects :=
  match E id with
  | some d => d.specialEffects
  | none => {}

/-- Set key of an equipment id (`eq_data.get('set')`). -/
def equipSet (E : EquipCatalog) (id : String) : Option String :=
  match E id with
  | some d => d.setKey
  | none => none

/-- Result of `calculate_stats_from_points` (the unused `level` parameter of
the source is dropped; the function never reads it). -/
structure PointStats where
  minDamage : ℚ
  maxDamage : ℚ
  health : ℚ
  magicDamage : ℚ
  critChance : ℚ
  critDamage : ℚ
  shield : ℚ
  deriving DecidableEq, Repr

/-- `DamageCalculator.calculate_stats_from_points`. -/
def calculate_stats_from_points (strength vitality intelligence dexterity defense : ℤ) :
    PointStats :=
  let effectiveDexCrit : ℚ := ((min dexterity 50 : ℤ) : ℚ) * 0.8
  { minDamage := (strength : ℚ) * 2.96 + 8
    maxDamage := (strength : ℚ) * 6.45 + 15
    health := (vitality : ℚ) * 35
    magicDamage := (intelligence : ℚ) * 6.0 + 10
    critChance := 1.0 + effectiveDexCrit
    critDamage := 100
    shield := (defense : ℚ) * 17 }

/-- Request body of `/calculate` (`data`), with `Option` marking absent
fields where absence differs from a supplied zero. An empty
`selectedWeapon` string is `none`. -/
structure Config where
  usePointSystem : Bool := false
  selectedWeapon : Option String := none
  playerLevel : ℤ := 190
  strength : ℤ := 0
  vitality : ℤ := 0
  intelligence : ℤ := 0
  dexterity : ℤ := 0
  defense : ℤ := 0
  minDamage : Option ℚ := none
  maxDamage : Option ℚ := none
  magicDamage : Option ℚ := none
  critRate : Option ℚ := none
  critDamage : Option ℚ := none
  magicPotion : Bool := false
  attackPotion : Bool := false
  goldenApple : Bool := false
  equipment : List String := []
  deriving DecidableEq, Repr

/-- Python's `x or default` on a parsed float: zero is falsy. -/
def pyOr (x d : ℚ) : ℚ := if x = 0 then d else x

/-- The running mutable stat variables of `calculate_damage`. -/
structure RunStats where
  minD : ℚ
  maxD : ℚ
  magicD : ℚ
  critR : ℚ
  critD : ℚ
  deriving DecidableEq, Repr

/-- Stage 1 — base values: from attribute points when `usePointSystem`, else
manual inputs with `or`-fallbacks for min/max/magic and `dict.get` defaults
for the crit fields. -/
def base_run_stats (cfg : Config) : RunStats :=
  if cfg.usePointSystem then
    let ps := calculate_stats_from_points cfg.strength cfg.vitality cfg.intelligence
      cfg.dexterity cfg.defense
    { minD := ps.minDamage, maxD := ps.maxDamage, magicD := ps.magicDamage,
      critR := ps.critChance, critD := ps.critDamage }
  else
    { minD := pyOr (cfg.minDamage.getD 0) 8
      maxD := pyOr (cfg.maxDamage.getD 0) 15
      magicD := pyOr (cfg.magicDamage.getD 0) 10
      critR := cfg.critRate.getD 1.0
      critD := cfg.critDamage.getD 100 }

/-- Stage 2 — damage type: `magic` iff a weapon is selected and its catalog
type is `staff` (unknown weapon ids fall back to `attack`). -/
def damage_type_of (W : WeaponCatalog) (cfg : Config) : String :=
  match cfg.selectedWeapon with
  | none => "attack"
  | some w =>
      match W w with
      | some wd => if wd.wtype = "staff" then "magic" else "attack"
      | none => "attack"

/-- Stage 3 — add the selected weapon's bonuses (unknown id: empty stats). -/
def stats_after_weapon (W : WeaponCatalog) (cfg : Config) : RunStats :=
  let s := base_run_stats cfg
  match cfg.selectedWeapon with
  | none => s
  | some w =>
      let wstats : Stats := match W w with | some wd => wd.stats | none => {}
      let b := calculate_equipment_bonus wstats
      { minD := s.minD + b.atkMin, maxD := s.maxD + b.atkMax,
        magicD := s.magicD + b.magic, critR := s.critR + b.critChance,
        critD := s.critD + b.critDamage }

/-- Stage 4 loop body — add one equipment entry's bonuses. -/
def apply_equipment (E : EquipCatalog) (s : RunStats) (id : String) : RunStats :=
  let b := calculate_equipment_bonus (equipStats E id)
  { minD := s.minD + b.atkMin, maxD := s.maxD + b.atkMax,
    magicD := s.magicD + b.magic, critR := s.critR + b.critChance,
    critD := s.critD + b.critDamage }

/-- Stage 4 — fold the equipment list over the running stats. -/
def stats_after_equipment (W : WeaponCatalog) (E : EquipCatalog) (cfg : Config) : RunStats :=
  cfg.equipment.foldl (apply_equipment E) (stats_after_weapon W cfg)

/-- Set tally for one key: selected weapon's piece plus every equipment
occurrence (duplicates counted separately). -/
def set_count (W : WeaponCatalog) (E : EquipCatalog) (cfg : Config) (key : String) : ℕ :=
  (match cfg.selectedWeapon with
   | none => 0
   | some w =>
       match W w with
       | some wd => if wd.setKey = some key then 1 else 0
       | none => 0) +
  cfg.equipment.countP (fun id => equipSet E id = some key)

/-- Average physical damage after equipment bonuses. -/
def avg_physical (W : WeaponCatalog) (E : EquipCatalog) (cfg : Config) : ℚ :=
  let s := stats_after_equipment W E cfg
  (s.minD + s.maxD) / 2

/-- The four potion-boosted effective damage variables. -/
structure EffStats where
  minD : ℚ
  maxD : ℚ
  avgD : ℚ
  magicD : ℚ
  deriving DecidableEq, Repr

/-- Stage 5 — potion multipliers applied in source order (attack potion,
then golden apple, then magic potion). -/
def eff_after_potions (W : WeaponCatalog) (E : EquipCatalog) (cfg : Config) : EffStats :=
  let s := stats_after_equipment W E cfg
  let e0 : EffStats := { minD := s.minD, maxD := s.maxD,
                         avgD := avg_physical W E cfg, magicD := s.magicD }
  let e1 : EffStats :=
    if cfg.attackPotion then
      { e0 with minD := e0.minD * 1.75, maxD := e0.maxD * 1.75, avgD := e0.avgD * 1.75 }
    else e0
  let e2 : EffStats :=
    if cfg.goldenApple then
      { e1 with minD := e1.minD * 1.5, maxD := e1.maxD * 1.5, avgD := e1.avgD * 1.5 }
    else e1
  if cfg.magicPotion then { e2 with magicD := e2.magicD * 1.75 } else e2

/-- Stage 6 — total crit rate after the Wolf Howl set bonus. -/
def total_crit_rate (W : WeaponCatalog) (E : EquipCatalog) (cfg : Config) : ℚ :=
  let t := (stats_after_equipment W E cfg).critR
  if 2 ≤ set_count W E cfg "wolf_howl" then t + 12 else t

/-- Total crit damage (no set bonus touches it). -/
def total_crit_damage (W : WeaponCatalog) (E : EquipCatalog) (cfg : Config) : ℚ :=
  (stats_after_equipment W E cfg).critD

/-- Stage 6 — effective stats after the Crimson and Forest Dweller set
bonuses. -/
def eff_after_sets (W : WeaponCatalog) (E : EquipCatalog) (cfg : Config) : EffStats :=
  let e := eff_after_potions W E cfg
  let e1 : EffStats :=
    if 2 ≤ set_count W E cfg "crimson" then { e with magicD := e.magicD * 1.18 } else e
  if 2 ≤ set_count W E cfg "forest_dweller" ∧ damage_type_of W cfg = "attack" then
    { e1 with minD := e1.minD * 1.18, maxD := e1.maxD * 1.18, avgD := e1.avgD * 1.18 }
  else e1

/-- Stage 7 — base damage pool: magic damage for magic type, average
physical damage for attack type. -/
def base_damage_of (W : WeaponCatalog) (E : EquipCatalog) (cfg : Config) : ℚ :=
  let e := eff_after_sets W E cfg
  if damage_type_of W cfg = "magic" then e.magicD else e.avgD

/-- Stage 7 — crit-triggering pool: same as base for magic, MAX damage for
attack. -/
def crit_base_damage_of (W : WeaponCatalog) (E : EquipCatalog) (cfg : Config) : ℚ :=
  let e := eff_after_sets W E cfg
  if damage_type_of W cfg = "magic" then e.magicD else e.maxD

/-- Stage 7 — `crit_rate = min(total_crit_rate/100, 1.0)`. -/
def crit_rate_fraction (W : WeaponCatalog) (E : EquipCatalog) (cfg : Config) : ℚ :=
  min (total_crit_rate W E cfg / 100) 1.0

/-- Stage 7 — `crit_damage_multiplier = 1 + total_crit_damage/100`. -/
def crit_damage_multiplier (W : WeaponCatalog) (E : EquipCatalog) (cfg : Config) : ℚ :=
  1 + total_crit_damage W E cfg / 100

/-- Stage 7 — expected non-crit branch. -/
def expected_non_crit (W : WeaponCatalog) (E : EquipCatalog) (cfg : Config) : ℚ :=
  base_damage_of W E cfg * (1 - crit_rate_fraction W E cfg)

/-- Stage 7 — expected crit branch. -/
def expected_crit (W : WeaponCatalog) (E : EquipCatalog) (cfg : Config) : ℚ :=
  crit_base_damage_of W E cfg * crit_damage_multiplier W E cfg * crit_rate_fraction W E cfg

/-- Stage 8 — flat item multipliers on the crit-step total: cursed
spellbook ×1.3, dual sword ×(1 + 0.15·(2−1)). -/
def total_damage_of (W : WeaponCatalog) (E : EquipCatalog) (cfg : Config) : ℚ :=
  let t0 := expected_non_crit W E cfg + expected_crit W E cfg
  let t1 := if "cursed_spellbook" ∈ cfg.equipment then t0 * 1.3 else t0
  if "dual_sword" ∈ cfg.equipment then t1 * (1 + 0.15 * (2 - 1)) else t1

/-- Stage 9 loop body — accumulate (burn chance, poison chance, volatile-gem
flag) over the flame items in the equipment list, reading catalog
`special_effects` with the source's per-item defaults. -/
def dot_accum (E : EquipCatalog) (acc : ℚ × ℚ × Bool) (item : String) : ℚ × ℚ × Bool :=
  if item = "daybreak" then
    (acc.1 + (equipEffects E item).burnChance.getD 0.52, acc.2.1, acc.2.2)
  else if item = "evernight" then
    (acc.1 + (equipEffects E item).burnChance.getD 0.40, acc.2.1, acc.2.2)
  else if item = "volatile_gem" then
    (acc.1 + (equipEffects E item).burnChance.getD 0.11,
     acc.2.1 + (equipEffects E item).poisonChance.getD 0.11, true)
  else acc

/-- Accumulated (burn, poison, has-volatile-gem) before the flame set
bonus. -/
def dot_chances (E : EquipCatalog) (cfg : Config) : ℚ × ℚ × Bool :=
  cfg.equipment.foldl (dot_accum E) (0, 0, false)

/-- Stage 9 — burn chance after the flame set bonus (+0.10 at 2+ pieces). -/
def burn_chance_of (W : WeaponCatalog) (E : EquipCatalog) (cfg : Config) : ℚ :=
  let b := (dot_chances E cfg).1
  if 2 ≤ set_count W E cfg "flame" then b + 0.10 else b

/-- Stage 9 — poison chance (volatile gem only). -/
def poison_chance_of (E : EquipCatalog) (cfg : Config) : ℚ :=
  (dot_chances E cfg).2.1

/-- Stage 9 — bleed chance (queen bee's crown only, catalog value with
default 0.26). -/
def bleed_chance_of (E : EquipCatalog) (cfg : Config) : ℚ :=
  if "queenbee_crown" ∈ cfg.equipment then
    (equipEffects E "queenbee_crown").bleedChance.getD 0.26
  else 0

/-- Stage 9 — total DoT pool: burn, bleed, poison (each gated on a positive
chance and scaled by `min(chance,1)`), plus the flat Blood Butcher term; all
read the potion- and set-boosted effective stats. -/
def dot_damage_of (W : WeaponCatalog) (E : EquipCatalog) (cfg : Config) : ℚ :=
  let e := eff_after_sets W E cfg
  let burnChance := burn_chance_of W E cfg
  let poisonChance := poison_chance_of E cfg
  let bleedChance := bleed_chance_of E cfg
  let hasVolatileGem := (dot_chances E cfg).2.2
  let burnPart :=
    if 0 < burnChance then
      let bd0 := e.magicD * 0.33 * 5
      let bd := if hasVolatileGem then bd0 + e.magicD * 0.20 else bd0
      bd * min burnChance 1
    else 0
  let bleedPart :=
    if 0 < bleedChance then (e.avgD * 0.25 * 5) * min bleedChance 1 else 0
  let poisonPart :=
    if 0 < poisonChance then
      (e.magicD * 0.40 * 5 + e.magicD * 0.20) * min poisonChance 1
    else 0
  let bloodPart :=
    if "blood_butcher" ∈ cfg.equipment then e.minD * 0.05 * 9 else 0
  burnPart + bleedPart + poisonPart + bloodPart

/-- Stage 10 — final damage. -/
def final_damage_of (W : WeaponCatalog) (E : EquipCatalog) (cfg : Config) : ℚ :=
  total_damage_of W E cfg + dot_damage_of W E cfg

/-- Three-hit breakdown record. -/
structure ThreeHit where
  hit1 : ℚ
  hit2 : ℚ
  hit3 : ℚ
  bonusDamage : ℚ
  totalDamage : ℚ
  mechanic : String
  deriving DecidableEq, Repr

/-- `DamageCalculator.calculate_three_hit_damage` (the `base_damage`
parameter is kept from the source; no branch reads it). -/
def calculate_three_hit_damage (base_damage dot_damage : ℚ) (weapon_type : String)
    (crit_multiplied_damage : ℚ) : ThreeHit :=
  let perHit := crit_multiplied_damage
  let dotPerHit := dot_damage
  if weapon_type = "staff" then
    let threeHits := (perHit + dotPerHit) * 3
    let bonus := perHit * 3
    { hit1 := perHit + dotPerHit, hit2 := perHit + dotPerHit, hit3 := perHit + dotPerHit,
      bonusDamage := bonus, totalDamage := threeHits + bonus,
      mechanic := "Flow: 100% per hit + 300% bonus after 3 hits" }
  else if weapon_type = "bow" then
    let threeHits := (perHit * 2 + dotPerHit) * 3
    { hit1 := perHit * 2 + dotPerHit, hit2 := perHit * 2 + dotPerHit,
      hit3 := perHit * 2 + dotPerHit, bonusDamage := 0, totalDamage := threeHits,
      mechanic := "Brust: 200% damage per hit" }
  else if weapon_type = "sword" ∨ weapon_type = "blade" then
    let h1 := perHit * 1 + dotPerHit
    let h2 := perHit * 3 + dotPerHit
    let h3 := perHit * 6 + dotPerHit
    { hit1 := h1, hit2 := h2, hit3 := h3, bonusDamage := 0,
      totalDamage := h1 + h2 + h3, mechanic := "Chain: 1x, 3x, 6x combo damage" }
  else if weapon_type = "scythe" then
    let expectedPerHit := perHit * 4 * 0.25 + perHit * 0.75 + dotPerHit
    { hit1 := expectedPerHit, hit2 := expectedPerHit, hit3 := expectedPerHit,
      bonusDamage := 0, totalDamage := expectedPerHit * 3,
      mechanic := "Reverberation: 25% chance for 400% damage" }
  else
    let threeHits := (perHit + dotPerHit) * 3
    { hit1 := perHit + dotPerHit, hit2 := perHit + dotPerHit, hit3 := perHit + dotPerHit,
      bonusDamage := 0, totalDamage := threeHits,
      mechanic := "Default: 100% damage per hit" }

/-- Stage 11 — weapon type fed to the three-hit computation:
`WEAPON_DB.get(w, {}).get('type', 'sword') if w else 'sword'`. -/
def three_hit_weapon_type (W : WeaponCatalog) (cfg : Config) : String :=
  match cfg.selectedWeapon with
  | none => "sword"
  | some w =>
      match W w with
      | some wd => wd.wtype
      | none => "sword"

/-- Half-even rounding of `q·100` back to hundredths (Python `round(x, 2)`
on exact values). -/
def roundTo2 (q : ℚ) : ℚ :=
  let x := q * 100
  let f := ⌊x⌋
  let r := x - (f : ℚ)
  let n : ℤ :=
    if r < 1/2 then f
    else if 1/2 < r then f + 1
    else if f % 2 = 0 then f else f + 1
  (n : ℚ) / 100

/-- `player_stats` block (present only under the point system). -/
structure PlayerStats where
  health : ℚ
  shield : ℚ
  totalHp : ℚ
  deriving DecidableEq, Repr

/-- The resolver's output: every numeric of the source's result dictionary
(unrounded; boundary rounding is a function of these fields), the
`effective_multiplier` as the source computes it, the set tallies, applied
set-bonus flags and the three-hit breakdown. -/
structure CalcResult where
  minDamage : ℚ
  maxDamage : ℚ
  magicDamage : ℚ
  avgPhysicalDamage : ℚ
  effectiveMinDamage : ℚ
  effectiveMaxDamage : ℚ
  effectiveAvgPhysicalDamage : ℚ
  effectiveMagicDamage : ℚ
  baseDamage : ℚ
  critBaseDamage : ℚ
  critRateFraction : ℚ
  critDamageMultiplier : ℚ
  expectedNonCritDamage : ℚ
  expectedCritDamage : ℚ
  totalDamage : ℚ
  dotDamage : ℚ
  finalDamage : ℚ
  effectiveMultiplier : ℚ
  totalCritRate : ℚ
  totalCritDamage : ℚ
  burnChance : ℚ
  bleedChance : ℚ
  poisonChance : ℚ
  flameSetCount : ℕ
  wolfHowlCount : ℕ
  crimsonCount : ℕ
  queenBeeCount : ℕ
  explorerCount : ℕ
  forestDwellerCount : ℕ
  libraryRuinaCount : ℕ
  blessingCount : ℕ
  damageType : String
  setWolfHowl : Bool
  setCrimson : Bool
  setForestDweller : Bool
  setExplorer : Bool
  setFlame : Bool
  threeHit : ThreeHit
  playerStats : Option PlayerStats

/-- `DamageCalculator.calculate_damage`: the full resolver pipeline. -/
def calculate_damage (W : WeaponCatalog) (E : EquipCatalog) (cfg : Config) : CalcResult :=
  let s := stats_after_equipment W E cfg
  let e := eff_after_sets W E cfg
  let td := total_damage_of W E cfg
  let dot := dot_damage_of W E cfg
  let fd := final_damage_of W E cfg
  let bd := base_damage_of W E cfg
  let explorerApplied := 2 ≤ set_count W E cfg "explorer"
  { minDamage := s.minD
    maxDamage := s.maxD
    magicDamage := s.magicD
    avgPhysicalDamage := avg_physical W E cfg
    effectiveMinDamage := e.minD
    effectiveMaxDamage := e.maxD
    effectiveAvgPhysicalDamage := e.avgD
    effectiveMagicDamage := e.magicD
    baseDamage := bd
    critBaseDamage := crit_base_damage_of W E cfg
    critRateFraction := crit_rate_fraction W E cfg
    critDamageMultiplier := crit_damage_multiplier W E cfg
    expectedNonCritDamage := expected_non_crit W E cfg
    expectedCritDamage := expected_crit W E cfg
    totalDamage := td
    dotDamage := dot
    finalDamage := fd
    effectiveMultiplier := if 0 < bd then roundTo2 (fd / bd) else 0
    totalCritRate := total_crit_rate W E cfg
    totalCritDamage := total_crit_damage W E cfg
    burnChance := burn_chance_of W E cfg
    bleedChance := bleed_chance_of E cfg
    poisonChance := poison_chance_of E cfg
    flameSetCount := set_count W E cfg "flame"
    wolfHowlCount := set_count W E cfg "wolf_howl"
    crimsonCount := set_count W E cfg "crimson"
    queenBeeCount := set_count W E cfg "queen_bee"
    explorerCount := set_count W E cfg "explorer"
    forestDwellerCount := set_count W E cfg "forest_dweller"
    libraryRuinaCount := set_count W E cfg "library_ruina"
    blessingCount := set_count W E cfg "blessing"
    damageType := damage_type_of W cfg
    setWolfHowl := 2 ≤ set_count W E cfg "wolf_howl"
    setCrimson := 2 ≤ set_count W E cfg "crimson"
    setForestDweller := 2 ≤ set_count W E cfg "forest_dweller" ∧ damage_type_of W cfg = "attack"
    setExplorer := explorerApplied
    setFlame := 2 ≤ set_count W E cfg "flame"
    threeHit := calculate_three_hit_damage bd dot (three_hit_weapon_type W cfg) td
    playerStats :=
      if cfg.usePointSystem then
        some { health := (cfg.vitality : ℚ) * 35 + (if explorerApplied then 200 else 0)
               shield := (cfg.defense : ℚ) * 17
               totalHp := (cfg.vitality : ℚ) * 35 + (cfg.defense : ℚ) * 17 +
                 (if explorerApplied then 200 else 0) }
      else none }

/-- `WEAPON_DB` as an association list, in source order. -/
def weaponList : List (String × WeaponDef) :=
  [("wooden_sword",
    { wtype := "sword", stats := { atkMin := some 5, atkMax := some 5 },
      setKey := some "blessing", levelReq := 1 }),
   ("wooden_staff",
    { wtype := "staff", stats := { magic := some 4 },
      setKey := some "blessing", levelReq := 1 }),
   ("wooden_bow",
    { wtype := "bow", stats := { atkMin := some 5, atkMax := some 5 },
      setKey := some "blessing", levelReq := 1 }),
   ("divine_blade",
    { wtype := "sword", stats := { atkMin := some 75, atkMax := some 83 },
      setKey := some "explorer", levelReq := 15 }),
   ("forest_dweller_staff",
    { wtype := "staff", stats := { magic := some 60 },
      setKey := some "explorer", levelReq := 15 }),
   ("forest_dweller_bow",
    { wtype := "bow", stats := { atkMin := some 75, atkMax := some 83 },
      setKey := some "explorer", levelReq := 15 }),
   ("crescendo_scythe",
    { wtype := "scythe", stats := { atkMin := some 75, atkMax := some 75 },
      setKey := some "library_ruina", levelReq := 15 }),
   ("emerald_staff",
    { wtype := "staff", stats := { magic := some 500 }, levelReq := 65 }),
   ("winter_howl",
    { wtype := "sword", stats := { atkMin := some 325, atkMax := some 360 },
      setKey := some "wolf_howl", levelReq := 65 }),
   ("eventide",
    { wtype := "bow", stats := { atkMin := some 325, atkMax := some 360 },
      setKey := some "queen_bee", levelReq := 65 })]

/-- `WEAPON_DB.get`. -/
def WEAPON_DB : WeaponCatalog := fun id => weaponList.lookup id

/-- `EQUIPMENT_DB` as an association list, in source order. -/
def equipmentList : List (String × EquipDef) :=
  [("burning_torch",
    { stats := { atkMin := some 5, atkMax := some 5 }, levelReq := 1 }),
   ("climbing_hook",
    { stats := { atkMin := some 5, atkMax := some 5 }, levelReq := 1 }),
   ("hunting_dagger",
    { stats := { atkMin := some 5, atkMax := some 5 },
      setKey := some "explorer", levelReq := 1 }),
   ("lantern",
    { stats := { magic := some 5 }, levelReq := 5 }),
   ("metal_plate",
    { stats := { shield := some 10 }, levelReq := 2 }),
   ("mining_pickaxe",
    { stats := { atkMin := some 5, atkMax := some 5 }, levelReq := 1 }),
   ("rabbits_foot",
    { stats := { critChance := some 3 }, levelReq := 5 }),
   ("sharpener_rock",
    { stats := { critChance := some 5, critDamage := some 10 },
      levelReq := 10 }),
   ("travellers_boots",
    { stats := { health := some 20 }, levelReq := 1 }),
   ("adventurers_kit",
    { stats := { health := some 50, shield := some 10 }, levelReq := 25 }),
   ("ancient_hammer",
    { stats := { atkMin := some 50, atkMax := some 50 }, levelReq := 10 }),
   ("ancient_wood_armor",
    { stats := { health := some 80, shield := some 15 },
      levelReq := 10 }),
   ("copper_sword",
    { stats := { atkMin := some 30, atkMax := some 30 }, levelReq := 5 }),
   ("dual_sword",
    { stats := { atkMin := some 135, atkMax := some 149 },
      specialEffects := { doubleDamageChance := some 0.15 }, levelReq := 100 }),
   ("forest_dweller_axe",
    { stats := { atkMin := some 40, atkMax := some 40, critChance := some 5 },
      specialEffects := { bleedChance := some 0.02 },
      setKey := some "forest_dweller", levelReq := 10 }),
   ("volatile_crystal",
    { stats := { magic := some 45 }, levelReq := 5 }),
   ("alderite_axe",
    { stats := { atkMin := some 175, atkMax := some 194, magic := some 140, critChance := some 5 },
      levelReq := 35 }),
   ("aqua_crystal",
    { stats := { magic := some 110 }, levelReq := 30 }),
   ("arcane_spellbook",
    { stats := { magic := some 100 }, levelReq := 25 }),
   ("corrupted_fang",
    { stats := { magic := some 130, atkMin := some 35, atkMax := some 35 },
      levelReq := 30 }),
   ("daybreak",
    { stats := { atkMin := some 100, atkMax := some 111 },
      specialEffects := { burnChance := some 0.52 }, setKey := some "flame", levelReq := 70 }),
   ("enchanted_blade",
    { stats := { atkMin := some 125, atkMax := some 125, magic := some 100 },
      levelReq := 25 }),
   ("magicians_hat",
    { stats := { magic := some 80, health := some 30 }, levelReq := 25 }),
   ("mana_lantern",
    { stats := { magic := some 90 }, levelReq := 25 }),
   ("atlantis_armor",
    { stats := { health := some 75, shield := some 10 }, levelReq := 50 }),
   ("bee_breastplate",
    { stats := { health := some 460, shield := some 40 },
      setKey := some "queen_bee", levelReq := 65 }),
   ("black_wolf_necklace",
    { stats := { atkMin := some 225, atkMax := some 249, critChance := some 15, critDamage := some 22 },
      setKey := some "wolf_howl", levelReq := 65 }),
   ("blood_butcher",
    { stats := { atkMin := some 250, atkMax := some 277, critChance := some 16 },
      specialEffects := { bloodButcher := true },
      setKey := some "crimson", levelReq := 50 }),
   ("crimson_slime_fang",
    { stats := { magic := some 220, critDamage := some 27 },
      setKey := some "crimson", levelReq := 65 }),
   ("cursed_spellbook",
    { stats := { magic := some 400 },
      specialEffects := { damageMultiplier := some 1.3 },
      setKey := some "crimson", levelReq := 100 }),
   ("evernight",
    { stats := { atkMin := some 450, atkMax := some 450 },
      specialEffects := { burnChance := some 0.40 }, setKey := some "flame",
      levelReq := 100 }),
   ("forest_crown",
    { stats := { health := some 775, shield := some 275 }, levelReq := 65 }),
   ("ghost_lantern",
    { stats := { magic := some 480 }, levelReq := 65 }),
   ("slime_crown",
    { stats := { health := some 200, shield := some 50 }, levelReq := 35 }),
   ("volcanic_axe",
    { stats := { atkMin := some 280, atkMax := some 280 },
      specialEffects := { burnChance := some 0.05 }, setKey := some "wolf_howl",
      levelReq := 65 }),
   ("winter_spirit",
    { stats := { atkMin := some 200, atkMax := some 200, health := some 50 },
      specialEffects := { freezeChance := some 0.02 }, levelReq := 65 }),
   ("queenbee_crown",
    { stats := { atkMin := some 800, atkMax := some 888, critChance := some 20, critDamage := some 80 },
      specialEffects := { bleedChance := some 0.26 },
      setKey := some "queen_bee", levelReq := 150 }),
   ("volatile_gem",
    { stats := { magic := some 315 },
      specialEffects := { burnChance := some 0.11, poisonChance := some 0.11, dotBonus := some 0.20 },
      setKey := some "flame", levelReq := 150 }),
   ("mana_crystal",
    { stats := { magic := some 25 }, levelReq := 5 }),
   ("aqua_lapis",
    { stats := { magic := some 70 }, levelReq := 30 })]

/-- `EQUIPMENT_DB.get`. -/
def EQUIPMENT_DB : EquipCatalog := fun id => equipmentList.lookup id

/-- Half-even rounding to tenths (Python `round(x, 1)` on exact values). -/
def roundTo1 (q : ℚ) : ℚ :=
  let x := q * 10
  let f := ⌊x⌋
  let r := x - (f : ℚ)
  let n : ℤ :=
    if r < 1/2 then f
    else if 1/2 < r then f + 1
    else if f % 2 = 0 then f else f + 1
  (n : ℚ) / 10

/-- One entry of the advanced optimizer's result list; numeric fields are
the (rounded) values the source reads back out of the resolver's result
dictionary. -/
structure ScoredCombo where
  ids : List String
  finalDamage : ℚ
  threeHitTotal : ℚ
  firstHit : ℚ
  dotDamage : ℚ
  critRate : ℚ
  critDamage : ℚ
  score : ℚ
  deriving DecidableEq, Repr

/-- Equipment ids meeting the level requirement
(`eq_data.get('level_req', 0) <= player_level`), in catalog order. -/
def available_equipment (playerLevel : ℤ) : List String :=
  (equipmentList.filter (fun p => ((p.2.levelReq : ℤ) ≤ playerLevel : Bool))).map
    (fun p => p.1)

/-- Score one equipment combination for the advanced optimizer. -/
def score_combo (base : Config) (optimizationType : String) (combo : List String) :
    ScoredCombo :=
  let r := calculate_damage WEAPON_DB EQUIPMENT_DB { base with equipment := combo }
  let finalD := roundTo2 r.finalDamage
  let threeHitTotal := roundTo2 r.threeHit.totalDamage
  let firstHit := roundTo2 r.threeHit.hit1
  let dotD := roundTo2 r.dotDamage
  let score :=
    if optimizationType = "final_damage" then finalD
    else if optimizationType = "three_hit" then threeHitTotal
    else if optimizationType = "first_hit" then firstHit
    else if optimizationType = "dot" then dotD
    else finalD
  { ids := combo, finalDamage := finalD, threeHitTotal := threeHitTotal,
    firstHit := firstHit, dotDamage := dotD, critRate := roundTo1 r.totalCritRate,
    critDamage := roundTo1 r.totalCritDamage, score := score }

/-- `/optimize_advanced`: filter the catalog by player level, enumerate all
3-subsets, score each with the resolver, sort by score descending (stable)
and keep the top 10.  Subset enumeration order differs from Python's
`itertools.combinations` but yields the same subsets. -/
def optimize_damage_advanced (base : Config) (optimizationType : String) :
    List ScoredCombo :=
  let available := available_equipment base.playerLevel
  let combos := List.sublistsLen 3 available
  let results := combos.map (score_combo base optimizationType)
  let sorted := results.mergeSort (fun a b => decide (b.score ≤ a.score))
  sorted.take 10

/-- All present stat values of an item are non-negative (reads mirror the
`getD 0` accesses of `calculate_equipment_bonus`). -/
def NonnegStats (s : Stats) : Prop :=
  0 ≤ s.atkMin.getD 0 ∧ 0 ≤ s.atkMax.getD 0 ∧ 0 ≤ s.magic.getD 0 ∧
  0 ≤ s.critChance.getD 0 ∧ 0 ≤ s.critDamage.getD 0 ∧
  0 ≤ s.health.getD 0 ∧ 0 ≤ s.shield.getD 0

/-- All present DoT chance values of an item are non-negative. -/
def NonnegEffects (se : SpecialEffects) : Prop :=
  0 ≤ se.burnChance.getD 0 ∧ 0 ≤ se.poisonChance.getD 0 ∧ 0 ≤ se.bleedChance.getD 0

/-- Every equipment-catalog entry has non-negative stat and chance values. -/
def NonnegEquipCatalog (E : EquipCatalog) : Prop :=
  ∀ id d, E id = some d → NonnegStats d.stats ∧ NonnegEffects d.specialEffects

/-- Every weapon-catalog entry has non-negative stat values. -/
def NonnegWeaponCatalog (W : WeaponCatalog) : Prop :=
  ∀ id d, W id = some d → NonnegStats d.stats

/-- All numeric inputs of a config (attribute points and manual stat
fields) are non-negative. -/
def NonnegConfig (cfg : Config) : Prop :=
  0 ≤ cfg.strength ∧ 0 ≤ cfg.vitality ∧ 0 ≤ cfg.intelligence ∧
  0 ≤ cfg.dexterity ∧ 0 ≤ cfg.defense ∧
  0 ≤ cfg.minDamage.getD 0 ∧ 0 ≤ cfg.maxDamage.getD 0 ∧ 0 ≤ cfg.magicDamage.getD 0 ∧
  0 ≤ cfg.critRate.getD 0 ∧ 0 ≤ cfg.critDamage.getD 0

/-- The five running stat variables are all non-negative. -/
def NonnegRun (r : RunStats) : Prop :=
  0 ≤ r.minD ∧ 0 ≤ r.maxD ∧ 0 ≤ r.magicD ∧ 0 ≤ r.critR ∧ 0 ≤ r.critD

/-- The four effective damage variables are all non-negative. -/
def NonnegEff (e : EffStats) : Prop :=
  0 ≤ e.minD ∧ 0 ≤ e.maxD ∧ 0 ≤ e.avgD ∧ 0 ≤ e.magicD

/-- The item ids whose mere presence in the equipment list is tested for a
special effect by the resolver (flat multipliers, DoT sources, Blood
Butcher). -/
def effect_checked_ids : List String :=
  ["cursed_spellbook", "dual_sword", "daybreak", "evernight", "volatile_gem",
   "queenbee_crown", "blood_butcher"]

/-- The item ids whose catalog `special_effects` VALUES the resolver
actually reads (with per-item defaults). -/
def effect_read_ids : List String :=
  ["daybreak", "evernight", "volatile_gem", "queenbee_crown"]

/-- Two optional catalog entries agree on everything except possibly their
`special_effects`. -/
def AgreeExceptEffects : Option EquipDef → Option EquipDef → Prop
  | none, none => True
  | some a, some b => a.stats = b.stats ∧ a.setKey = b.setKey ∧ a.levelReq = b.levelReq
  | _, _ => False

/-- An id is a catalog item whose level requirement is met. -/
def level_ok (id : String) (lvl : ℤ) : Bool :=
  match EQUIPMENT_DB id with
  | some d => decide ((d.levelReq : ℤ) ≤ lvl)
  | none => false

/-! ## Theorems -/


/-- C1: Crit resolution in the resolver: the crit-rate fraction is
`min(totalCritRate/100, 1.0)` (hence exactly 1 whenever the total crit rate
exceeds 100); the crit-damage multiplier is `1 + totalCritDamage/100`; the
non-crit branch reads the base pool (effective magic damage for the magic
type, effective average physical damage for the attack type) while the
attack-type crit branch reads effective MAX damage; and the crit-step total
(which is the reported total damage whenever neither flat-multiplier item is
equipped) is `basePool·(1−fraction) + critPool·multiplier·fraction`. -/
theorem claim_C1 (W : WeaponCatalog) (E : EquipCatalog) (cfg : Config) :
    (calculate_damage W E cfg).critRateFraction =
      min ((calculate_damage W E cfg).totalCritRate / 100) 1.0 ∧
    (100 < (calculate_damage W E cfg).totalCritRate →
      (calculate_damage W E cfg).critRateFraction = 1) ∧
    (calculate_damage W E cfg).critDamageMultiplier =
      1 + (calculate_damage W E cfg).totalCritDamage / 100 ∧
    (calculate_damage W E cfg).baseDamage =
      (if (calculate_damage W E cfg).damageType = "magic" then
        (calculate_damage W E cfg).effectiveMagicDamage
       else (calculate_damage W E cfg).effectiveAvgPhysicalDamage) ∧
    (calculate_damage W E cfg).critBaseDamage =
      (if (calculate_damage W E cfg).damageType = "magic" then
        (calculate_damage W E cfg).effectiveMagicDamage
       else (calculate_damage W E cfg).effectiveMaxDamage) ∧
    (calculate_damage W E cfg).expectedNonCritDamage =
      (calculate_damage W E cfg).baseDamage * (1 - (calculate_damage W E cfg).critRateFraction) ∧
    (calculate_damage W E cfg).expectedCritDamage =
      (calculate_damage W E cfg).critBaseDamage * (calculate_damage W E cfg).critDamageMultiplier *
        (calculate_damage W E cfg).critRateFraction ∧
    ("cursed_spellbook" ∉ cfg.equipment → "dual_sword" ∉ cfg.equipment →
      (calculate_damage W E cfg).totalDamage =
        (calculate_damage W E cfg).expectedNonCritDamage +
          (calculate_damage W E cfg).expectedCritDamage) := by
  refine ⟨rfl, ?_, rfl, rfl, rfl, rfl, rfl, ?_⟩
  · intro h
    have h' : (100 : ℚ) < total_crit_rate W E cfg := h
    show min (total_crit_rate W E cfg / 100) 1.0 = 1
    have h1 : (1.0 : ℚ) ≤ total_crit_rate W E cfg / 100 := by
      rw [le_div_iff₀ (by norm_num : (0:ℚ) < 100)]
      nlinarith [h']
    rw [min_eq_right h1]
    norm_num
  · intro h1 h2
    show total_damage_of W E cfg = expected_non_crit W E cfg + expected_crit W E cfg
    simp only [total_damage_of]
    rw [if_neg h1, if_neg h2]

/-- C1 witness: with manual crit rate 150 (and otherwise default inputs)
the total crit rate is 150 > 100 and the crit-rate fraction is exactly 1. -/
theorem claim_C1_witness :
    (calculate_damage WEAPON_DB EQUIPMENT_DB { critRate := some 150 }).critRateFraction = 1 :=
  (claim_C1 WEAPON_DB EQUIPMENT_DB { critRate := some 150 }).2.1 (by
    show (100 : ℚ) < total_crit_rate WEAPON_DB EQUIPMENT_DB { critRate := some 150 }
    norm_num [total_crit_rate, stats_after_equipment, stats_after_weapon, base_run_stats,
      pyOr, set_count])

/-- C5: the attack potion multiplies effective physical min/max/avg by 1.75
and the golden apple by 1.5, compounding to exactly 2.625; concretely, with
manual `minDamage=maxDamage=100`, both potions, and no weapon or equipment,
the effective average physical damage is exactly 262.5. -/
theorem claim_C5 (W : WeaponCatalog) (E : EquipCatalog) (cfg : Config) :
    (eff_after_potions W E cfg).minD =
      (stats_after_equipment W E cfg).minD *
        (if cfg.attackPotion then 1.75 else 1) * (if cfg.goldenApple then 1.5 else 1) ∧
    (eff_after_potions W E cfg).maxD =
      (stats_after_equipment W E cfg).maxD *
        (if cfg.attackPotion then 1.75 else 1) * (if cfg.goldenApple then 1.5 else 1) ∧
    (eff_after_potions W E cfg).avgD =
      avg_physical W E cfg *
        (if cfg.attackPotion then 1.75 else 1) * (if cfg.goldenApple then 1.5 else 1) ∧
    (1.75 * 1.5 : ℚ) = 2.625 ∧
    (calculate_damage WEAPON_DB EQUIPMENT_DB
      { minDamage := some 100, maxDamage := some 100,
        attackPotion := true, goldenApple := true }).effectiveAvgPhysicalDamage = 262.5 := by
  refine ⟨?_, ?_, ?_, by norm_num, ?_⟩
  · simp only [eff_after_potions]
    rcases hA : cfg.attackPotion <;> rcases hG : cfg.goldenApple <;>
      rcases hM : cfg.magicPotion <;> simp [hA, hG, hM]
  · simp only [eff_after_potions]
    rcases hA : cfg.attackPotion <;> rcases hG : cfg.goldenApple <;>
      rcases hM : cfg.magicPotion <;> simp [hA, hG, hM]
  · simp only [eff_after_potions]
    rcases hA : cfg.attackPotion <;> rcases hG : cfg.goldenApple <;>
      rcases hM : cfg.magicPotion <;> simp [hA, hG, hM]
  · norm_num [calculate_damage, eff_after_sets, eff_after_potions, stats_after_equipment,
      stats_after_weapon, base_run_stats, pyOr, avg_physical, set_count, damage_type_of]

/-- C2 counterexample: with no weapon selected and otherwise default manual
inputs, the three-hit breakdown is NOT three identical hits — the resolver
falls back to the `'sword'` weapon type (Chain 1x/3x/6x), so the second hit
differs from the first and the total is not `3·(totalDamage+dot)`. -/
theorem claim_C2_counterexample :
    (calculate_damage WEAPON_DB EQUIPMENT_DB {}).threeHit.hit2 ≠
      (calculate_damage WEAPON_DB EQUIPMENT_DB {}).threeHit.hit1 ∧
    (calculate_damage WEAPON_DB EQUIPMENT_DB {}).threeHit.totalDamage ≠
      3 * ((calculate_damage WEAPON_DB EQUIPMENT_DB {}).totalDamage +
        (calculate_damage WEAPON_DB EQUIPMENT_DB {}).dotDamage) := by
  constructor <;>
    · simp only [calculate_damage, calculate_three_hit_damage, three_hit_weapon_type,
        total_damage_of, expected_non_crit, expected_crit, base_damage_of, crit_base_damage_of,
        crit_rate_fraction, crit_damage_multiplier, total_crit_rate, total_crit_damage,
        eff_after_sets, eff_after_potions, stats_after_equipment, stats_after_weapon,
        base_run_stats, pyOr, avg_physical, set_count, damage_type_of, dot_damage_of,
        dot_chances, burn_chance_of, poison_chance_of, bleed_chance_of, final_damage_of]
      simp
      norm_num

/-- C2 (amended): when the selected weapon is absent or its id is unknown,
the weapon type defaults to `'sword'`, so the three-hit breakdown is the
Chain combo — hits `totalDamage·1+dot`, `totalDamage·3+dot`,
`totalDamage·6+dot`, zero bonus, total the sum of the three hits; the
default branch of three identical `totalDamage+dot` hits with zero bonus
applies only to a catalog weapon whose type is none of
staff/bow/sword/blade/scythe. -/
theorem claim_C2 (W : WeaponCatalog) (E : EquipCatalog) (cfg : Config) :
    ((cfg.selectedWeapon = none ∨
        ∃ w, cfg.selectedWeapon = some w ∧ W w = none) →
      (calculate_damage W E cfg).threeHit.hit1 =
        (calculate_damage W E cfg).totalDamage * 1 + (calculate_damage W E cfg).dotDamage ∧
      (calculate_damage W E cfg).threeHit.hit2 =
        (calculate_damage W E cfg).totalDamage * 3 + (calculate_damage W E cfg).dotDamage ∧
      (calculate_damage W E cfg).threeHit.hit3 =
        (calculate_damage W E cfg).totalDamage * 6 + (calculate_damage W E cfg).dotDamage ∧
      (calculate_damage W E cfg).threeHit.bonusDamage = 0 ∧
      (calculate_damage W E cfg).threeHit.totalDamage =
        (calculate_damage W E cfg).threeHit.hit1 + (calculate_damage W E cfg).threeHit.hit2 +
          (calculate_damage W E cfg).threeHit.hit3) ∧
    (∀ w wd, cfg.selectedWeapon = some w → W w = some wd →
      wd.wtype ≠ "staff" → wd.wtype ≠ "bow" → wd.wtype ≠ "sword" → wd.wtype ≠ "blade" →
      wd.wtype ≠ "scythe" →
      (calculate_damage W E cfg).threeHit.hit1 =
        (calculate_damage W E cfg).totalDamage + (calculate_damage W E cfg).dotDamage ∧
      (calculate_damage W E cfg).threeHit.hit2 = (calculate_damage W E cfg).threeHit.hit1 ∧
      (calculate_damage W E cfg).threeHit.hit3 = (calculate_damage W E cfg).threeHit.hit1 ∧
      (calculate_damage W E cfg).threeHit.bonusDamage = 0 ∧
      (calculate_damage W E cfg).threeHit.totalDamage =
        ((calculate_damage W E cfg).totalDamage + (calculate_damage W E cfg).dotDamage) * 3) := by
  constructor
  · intro h
    have htype : three_hit_weapon_type W cfg = "sword" := by
      rcases h with h | ⟨w, hw, hWw⟩
      · simp [three_hit_weapon_type, h]
      · simp [three_hit_weapon_type, hw, hWw]
    simp only [calculate_damage]
    rw [htype]
    simp [calculate_three_hit_damage]
  · intro w wd hw hWw h1 h2 h3 h4 h5
    have htype : three_hit_weapon_type W cfg = wd.wtype := by
      simp [three_hit_weapon_type, hw, hWw]
    simp only [calculate_damage]
    rw [htype]
    simp only [calculate_three_hit_damage]
    rw [if_neg h1, if_neg h2, if_neg (by simp [h3, h4]), if_neg h5]
    simp

/-- C2 witness for the amended claim: a config with no weapon gets the
Chain breakdown (second hit is three times the crit-multiplied damage). -/
theorem claim_C2_witness :
    (calculate_damage WEAPON_DB EQUIPMENT_DB {}).threeHit.hit2 =
      (calculate_damage WEAPON_DB EQUIPMENT_DB {}).totalDamage * 3 +
        (calculate_damage WEAPON_DB EQUIPMENT_DB {}).dotDamage :=
  ((claim_C2 WEAPON_DB EQUIPMENT_DB {}).1 (Or.inl rfl)).2.1

/-- C6 counterexample: a manual config that supplies `critRate = 0` keeps
crit rate 0 — the substitution of the fallback default 1.0 claimed for a
zero value does not happen (only for an absent field). -/
theorem claim_C6_counterexample :
    (calculate_damage WEAPON_DB EQUIPMENT_DB { critRate := some 0 }).totalCritRate = 0 ∧
    (0 : ℚ) ≠ 1.0 := by
  constructor
  · show total_crit_rate WEAPON_DB EQUIPMENT_DB { critRate := some 0 } = 0
    simp [total_crit_rate, stats_after_equipment, stats_after_weapon, base_run_stats,
      pyOr, set_count]
  · norm_num

/-- C6 (amended): in manual mode, `minDamage`, `maxDamage` and `magicDamage`
fall back to 8, 15 and 10 when zero or absent and are used directly
otherwise; `critRatePercent` and `critDamagePercent` fall back to 1.0 and
100 only when absent — a supplied value, zero included, is used directly. -/
theorem claim_C6 (cfg : Config) (h : cfg.usePointSystem = false) :
    (base_run_stats cfg).minD =
      (if cfg.minDamage.getD 0 = 0 then 8 else cfg.minDamage.getD 0) ∧
    (base_run_stats cfg).maxD =
      (if cfg.maxDamage.getD 0 = 0 then 15 else cfg.maxDamage.getD 0) ∧
    (base_run_stats cfg).magicD =
      (if cfg.magicDamage.getD 0 = 0 then 10 else cfg.magicDamage.getD 0) ∧
    (base_run_stats cfg).critR = cfg.critRate.getD 1.0 ∧
    (base_run_stats cfg).critD = cfg.critDamage.getD 100 := by
  unfold base_run_stats
  rw [h]
  exact ⟨rfl, rfl, rfl, rfl, rfl⟩

/-- C6 witness: a manual config with `minDamage = 0` supplied and the other
fields absent gets the fallbacks 8/15/10/1/100. -/
theorem claim_C6_witness :
    (base_run_stats { minDamage := some 0 }).minD = 8 ∧
    (base_run_stats { minDamage := some 0 }).maxD = 15 ∧
    (base_run_stats { minDamage := some 0 }).magicD = 10 ∧
    (base_run_stats { minDamage := some 0 }).critR = 1.0 ∧
    (base_run_stats { minDamage := some 0 }).critD = 100 := by
  have h := claim_C6 { minDamage := some 0 } rfl
  refine ⟨?_, ?_, ?_, ?_, ?_⟩
  · rw [h.1]; norm_num
  · rw [h.2.1]; norm_num
  · rw [h.2.2.1]; norm_num
  · rw [h.2.2.2.1]; norm_num
  · rw [h.2.2.2.2]; norm_num

/-- C7: the resolver's `effective_multiplier` equals
`round2(finalDamage/baseDamage)` whenever the base damage is positive, and
is exactly 0 when the base damage is 0 (the zero guard, so a zero base never
reaches the division). -/
theorem claim_C7 (W : WeaponCatalog) (E : EquipCatalog) (cfg : Config) :
    (0 < (calculate_damage W E cfg).baseDamage →
      (calculate_damage W E cfg).effectiveMultiplier =
        roundTo2 ((calculate_damage W E cfg).finalDamage /
          (calculate_damage W E cfg).baseDamage)) ∧
    ((calculate_damage W E cfg).baseDamage = 0 →
      (calculate_damage W E cfg).effectiveMultiplier = 0) := by
  constructor
  · intro h
    have h' : 0 < base_damage_of W E cfg := h
    show (if 0 < base_damage_of W E cfg then
        roundTo2 (final_damage_of W E cfg / base_damage_of W E cfg) else 0) = _
    rw [if_pos h']
    rfl
  · intro h
    have h' : base_damage_of W E cfg = 0 := h
    show (if 0 < base_damage_of W E cfg then
        roundTo2 (final_damage_of W E cfg / base_damage_of W E cfg) else 0) = 0
    rw [if_neg (by rw [h']; exact lt_irrefl 0)]

/-- C7 witness: the default manual config has positive base damage (11.5)
and its effective multiplier equals the rounded final/base ratio. -/
theorem claim_C7_witness :
    (calculate_damage WEAPON_DB EQUIPMENT_DB {}).effectiveMultiplier =
      roundTo2 ((calculate_damage WEAPON_DB EQUIPMENT_DB {}).finalDamage /
        (calculate_damage WEAPON_DB EQUIPMENT_DB {}).baseDamage) :=
  (claim_C7 WEAPON_DB EQUIPMENT_DB {}).1 (by
    show (0:ℚ) < base_damage_of WEAPON_DB EQUIPMENT_DB {}
    simp only [base_damage_of, damage_type_of, eff_after_sets, eff_after_potions,
      stats_after_equipment, stats_after_weapon, base_run_stats, pyOr, avg_physical, set_count]
    simp
    norm_num)

/-- C4: for each set key in wolf_howl/crimson/forest_dweller/explorer/flame,
the applied-bonus flag holds exactly when the tally is ≥ 2 (so a tally of 0
or 1 never applies the bonus, 2 or more always does, and the predicate is
monotone in the tally), and the bonuses are respectively +12 crit-rate
points, ×1.18 magic, ×1.18 physical (only when the damage type is attack),
a +200-health flag applied to point-system player stats, and +0.10 burn
chance. -/
theorem claim_C4 (W : WeaponCatalog) (E : EquipCatalog) (cfg : Config) :
    ((calculate_damage W E cfg).setWolfHowl = true ↔
      2 ≤ set_count W E cfg "wolf_howl") ∧
    (calculate_damage W E cfg).totalCritRate =
      (stats_after_equipment W E cfg).critR +
        (if 2 ≤ set_count W E cfg "wolf_howl" then 12 else 0) ∧
    ((calculate_damage W E cfg).setCrimson = true ↔
      2 ≤ set_count W E cfg "crimson") ∧
    (calculate_damage W E cfg).effectiveMagicDamage =
      (eff_after_potions W E cfg).magicD *
        (if 2 ≤ set_count W E cfg "crimson" then 1.18 else 1) ∧
    ((calculate_damage W E cfg).setForestDweller = true ↔
      2 ≤ set_count W E cfg "forest_dweller" ∧ damage_type_of W cfg = "attack") ∧
    (calculate_damage W E cfg).effectiveAvgPhysicalDamage =
      (eff_after_potions W E cfg).avgD *
        (if 2 ≤ set_count W E cfg "forest_dweller" ∧ damage_type_of W cfg = "attack"
         then 1.18 else 1) ∧
    ((calculate_damage W E cfg).setExplorer = true ↔
      2 ≤ set_count W E cfg "explorer") ∧
    (cfg.usePointSystem = true →
      (calculate_damage W E cfg).playerStats = some
        { health := (cfg.vitality : ℚ) * 35 +
            (if 2 ≤ set_count W E cfg "explorer" then 200 else 0)
          shield := (cfg.defense : ℚ) * 17
          totalHp := (cfg.vitality : ℚ) * 35 + (cfg.defense : ℚ) * 17 +
            (if 2 ≤ set_count W E cfg "explorer" then 200 else 0) }) ∧
    ((calculate_damage W E cfg).setFlame = true ↔ 2 ≤ set_count W E cfg "flame") ∧
    (calculate_damage W E cfg).burnChance =
      (dot_chances E cfg).1 + (if 2 ≤ set_count W E cfg "flame" then 0.10 else 0) := by
  refine ⟨by simp [calculate_damage], ?_, by simp [calculate_damage], ?_,
    by simp [calculate_damage], ?_, by simp [calculate_damage], ?_,
    by simp [calculate_damage], ?_⟩
  · show total_crit_rate W E cfg = _
    by_cases h : 2 ≤ set_count W E cfg "wolf_howl" <;> simp [total_crit_rate, h]
  · show (eff_after_sets W E cfg).magicD = _
    by_cases h : 2 ≤ set_count W E cfg "crimson" <;>
      by_cases h2 : 2 ≤ set_count W E cfg "forest_dweller" ∧ damage_type_of W cfg = "attack" <;>
        simp [eff_after_sets, h, h2]
  · show (eff_after_sets W E cfg).avgD = _
    by_cases h : 2 ≤ set_count W E cfg "crimson" <;>
      by_cases h2 : 2 ≤ set_count W E cfg "forest_dweller" ∧ damage_type_of W cfg = "attack" <;>
        simp [eff_after_sets, h, h2]
  · intro hu
    simp only [calculate_damage, hu]
    simp
  · show burn_chance_of W E cfg = _
    by_cases h : 2 ≤ set_count W E cfg "flame" <;> simp [burn_chance_of, h]

/-- C4 witness: a point-system config with two explorer pieces (Divine
Blade + Hunting Dagger) and vitality 10 gets the +200 HP explorer bonus:
player health 550. -/
theorem claim_C4_witness :
    (calculate_damage WEAPON_DB EQUIPMENT_DB
      { usePointSystem := true, vitality := 10,
        selectedWeapon := some "divine_blade",
        equipment := ["hunting_dagger"] }).playerStats =
      some { health := 550, shield := 0, totalHp := 550 } := by
  have h := (claim_C4 WEAPON_DB EQUIPMENT_DB
    { usePointSystem := true, vitality := 10,
      selectedWeapon := some "divine_blade",
      equipment := ["hunting_dagger"] }).2.2.2.2.2.2.2.1 rfl
  rw [h]
  rw [if_pos (show 2 ≤ set_count WEAPON_DB EQUIPMENT_DB
    { usePointSystem := true, vitality := 10,
      selectedWeapon := some "divine_blade",
      equipment := ["hunting_dagger"] } "explorer" from by decide)]
  norm_num

/-! ### Non-negativity helpers (shared) -/

theorem nn_getD {o : Option ℚ} (h : 0 ≤ o.getD 0) {d : ℚ} (hd : 0 ≤ d) : 0 ≤ o.getD d := by
  cases o with
  | none => simpa using hd
  | some x => simpa using h

theorem nn_pyOr {x d : ℚ} (hx : 0 ≤ x) (hd : 0 ≤ d) : 0 ≤ pyOr x d := by
  unfold pyOr; split <;> assumption

theorem nn_empty_stats : NonnegStats ({} : Stats) := by simp [NonnegStats]

theorem nn_bonus {s : Stats} (h : NonnegStats s) :
    0 ≤ (calculate_equipment_bonus s).atkMin ∧ 0 ≤ (calculate_equipment_bonus s).atkMax ∧
    0 ≤ (calculate_equipment_bonus s).magic ∧ 0 ≤ (calculate_equipment_bonus s).critChance ∧
    0 ≤ (calculate_equipment_bonus s).critDamage := by
  obtain ⟨h1, h2, h3, h4, h5, _, _⟩ := h
  have hpair : 0 ≤ (calculate_equipment_bonus s).atkMin ∧
      0 ≤ (calculate_equipment_bonus s).atkMax := by
    unfold calculate_equipment_bonus
    rcases hmin : s.atkMin with _ | x <;> rcases hmax : s.atkMax with _ | y <;>
      rw [hmin] at h1 <;> rw [hmax] at h2 <;> simp only [hmin, hmax] <;>
      simp at h1 h2 ⊢ <;> constructor <;> nlinarith
  exact ⟨hpair.1, hpair.2, show 0 ≤ s.magic.getD 0 from h3,
    show 0 ≤ s.critChance.getD 0 from h4, show 0 ≤ s.critDamage.getD 0 from h5⟩

theorem nn_base {cfg : Config} (h : NonnegConfig cfg) : NonnegRun (base_run_stats cfg) := by
  obtain ⟨hs, hv, hi, hd, hdef, hmin, hmax, hmag, hcr, hcd⟩ := h
  unfold base_run_stats NonnegRun
  rcases hu : cfg.usePointSystem with _ | _
  · simp only [hu, Bool.false_eq_true, if_false]
    exact ⟨nn_pyOr hmin (by norm_num), nn_pyOr hmax (by norm_num), nn_pyOr hmag (by norm_num),
      nn_getD hcr (by norm_num), nn_getD hcd (by norm_num)⟩
  · simp only [hu, if_true, calculate_stats_from_points]
    have hs' : (0 : ℚ) ≤ (cfg.strength : ℚ) := by exact_mod_cast hs
    have hi' : (0 : ℚ) ≤ (cfg.intelligence : ℚ) := by exact_mod_cast hi
    have hdx : (0 : ℤ) ≤ min cfg.dexterity 50 := le_min hd (by norm_num)
    have hdx' : (0 : ℚ) ≤ ((min cfg.dexterity 50 : ℤ) : ℚ) := by exact_mod_cast hdx
    refine ⟨by nlinarith, by nlinarith, by nlinarith, by nlinarith, by norm_num⟩

theorem nn_weapon {W : WeaponCatalog} {cfg : Config} (hc : NonnegConfig cfg)
    (hW : NonnegWeaponCatalog W) : NonnegRun (stats_after_weapon W cfg) := by
  obtain ⟨hb1, hb2, hb3, hb4, hb5⟩ := nn_base hc
  unfold stats_after_weapon
  rcases hw : cfg.selectedWeapon with _ | w
  · exact ⟨hb1, hb2, hb3, hb4, hb5⟩
  · have hst : NonnegStats (match W w with | some wd => wd.stats | none => {}) := by
      rcases hWw : W w with _ | wd
      · exact nn_empty_stats
      · exact hW w wd hWw
    have hbb := nn_bonus hst
    exact ⟨add_nonneg hb1 hbb.1, add_nonneg hb2 hbb.2.1, add_nonneg hb3 hbb.2.2.1,
      add_nonneg hb4 hbb.2.2.2.1, add_nonneg hb5 hbb.2.2.2.2⟩

theorem nn_apply {E : EquipCatalog} {s : RunStats} (hE : NonnegEquipCatalog E)
    (hs : NonnegRun s) (id : String) : NonnegRun (apply_equipment E s id) := by
  obtain ⟨h1, h2, h3, h4, h5⟩ := hs
  have hst : NonnegStats (equipStats E id) := by
    unfold equipStats
    rcases hid : E id with _ | d
    · exact nn_empty_stats
    · exact (hE id d hid).1
  have hbb := nn_bonus hst
  exact ⟨add_nonneg h1 hbb.1, add_nonneg h2 hbb.2.1, add_nonneg h3 hbb.2.2.1,
    add_nonneg h4 hbb.2.2.2.1, add_nonneg h5 hbb.2.2.2.2⟩

theorem nn_foldl {E : EquipCatalog} (hE : NonnegEquipCatalog E) :
    ∀ (l : List String) (s : RunStats), NonnegRun s →
      NonnegRun (l.foldl (apply_equipment E) s) := by
  intro l
  induction l with
  | nil => intro s hs; simpa using hs
  | cons a t ih =>
      intro s hs
      rw [List.foldl_cons]
      exact ih _ (nn_apply hE hs a)

theorem nn_equip {W : WeaponCatalog} {E : EquipCatalog} {cfg : Config}
    (hc : NonnegConfig cfg) (hW : NonnegWeaponCatalog W) (hE : NonnegEquipCatalog E) :
    NonnegRun (stats_after_equipment W E cfg) :=
  nn_foldl hE _ _ (nn_weapon hc hW)

theorem nn_avg {W : WeaponCatalog} {E : EquipCatalog} {cfg : Config}
    (hc : NonnegConfig cfg) (hW : NonnegWeaponCatalog W) (hE : NonnegEquipCatalog E) :
    0 ≤ avg_physical W E cfg := by
  have h := nn_equip hc hW hE
  unfold avg_physical
  exact div_nonneg (add_nonneg h.1 h.2.1) (by norm_num)

theorem nn_potions {W : WeaponCatalog} {E : EquipCatalog} {cfg : Config}
    (hc : NonnegConfig cfg) (hW : NonnegWeaponCatalog W) (hE : NonnegEquipCatalog E) :
    NonnegEff (eff_after_potions W E cfg) := by
  obtain ⟨h1, h2, h3, _, _⟩ := nn_equip hc hW hE
  have ha := nn_avg hc hW hE
  unfold eff_after_potions NonnegEff
  rcases cfg.attackPotion <;> rcases cfg.goldenApple <;> rcases cfg.magicPotion <;>
    simp <;>
    refine ⟨by nlinarith, by nlinarith, by nlinarith, by nlinarith⟩

theorem nn_sets {W : WeaponCatalog} {E : EquipCatalog} {cfg : Config}
    (hc : NonnegConfig cfg) (hW : NonnegWeaponCatalog W) (hE : NonnegEquipCatalog E) :
    NonnegEff (eff_after_sets W E cfg) := by
  obtain ⟨h1, h2, h3, h4⟩ := nn_potions hc hW hE
  unfold NonnegEff
  simp only [eff_after_sets]
  split_ifs <;> refine ⟨?_, ?_, ?_, ?_⟩ <;>
    first
      | nlinarith
      | (simp; nlinarith)

theorem nn_tcr {W : WeaponCatalog} {E : EquipCatalog} {cfg : Config}
    (hc : NonnegConfig cfg) (hW : NonnegWeaponCatalog W) (hE : NonnegEquipCatalog E) :
    0 ≤ total_crit_rate W E cfg := by
  have h := (nn_equip hc hW hE).2.2.2.1
  simp only [total_crit_rate]
  split_ifs <;> nlinarith

theorem nn_tcd {W : WeaponCatalog} {E : EquipCatalog} {cfg : Config}
    (hc : NonnegConfig cfg) (hW : NonnegWeaponCatalog W) (hE : NonnegEquipCatalog E) :
    0 ≤ total_crit_damage W E cfg :=
  (nn_equip hc hW hE).2.2.2.2

theorem nn_fraction {W : WeaponCatalog} {E : EquipCatalog} {cfg : Config}
    (hc : NonnegConfig cfg) (hW : NonnegWeaponCatalog W) (hE : NonnegEquipCatalog E) :
    0 ≤ crit_rate_fraction W E cfg ∧ crit_rate_fraction W E cfg ≤ 1 := by
  have h := nn_tcr hc hW hE
  unfold crit_rate_fraction
  constructor
  · exact le_min (by positivity) (by norm_num)
  · calc min (total_crit_rate W E cfg / 100) 1.0 ≤ 1.0 := min_le_right _ _
      _ = 1 := by norm_num

theorem nn_total {W : WeaponCatalog} {E : EquipCatalog} {cfg : Config}
    (hc : NonnegConfig cfg) (hW : NonnegWeaponCatalog W) (hE : NonnegEquipCatalog E) :
    0 ≤ total_damage_of W E cfg := by
  have he := nn_sets hc hW hE
  have hf := nn_fraction hc hW hE
  have htcd := nn_tcd hc hW hE
  have hbase : 0 ≤ base_damage_of W E cfg := by
    unfold base_damage_of; split_ifs
    · exact he.2.2.2
    · exact he.2.2.1
  have hcb : 0 ≤ crit_base_damage_of W E cfg := by
    unfold crit_base_damage_of; split_ifs
    · exact he.2.2.2
    · exact he.2.1
  have hmul : 0 ≤ crit_damage_multiplier W E cfg := by
    unfold crit_damage_multiplier; nlinarith
  have hnc : 0 ≤ expected_non_crit W E cfg := by
    unfold expected_non_crit; nlinarith [hf.1, hf.2]
  have hcr : 0 ≤ expected_crit W E cfg := by
    unfold expected_crit
    exact mul_nonneg (mul_nonneg hcb hmul) hf.1
  simp only [total_damage_of]
  split_ifs <;> nlinarith

theorem nn_burn_getD {E : EquipCatalog} (hE : NonnegEquipCatalog E) (id : String)
    {d : ℚ} (hd : 0 ≤ d) : 0 ≤ (equipEffects E id).burnChance.getD d := by
  unfold equipEffects
  rcases h : E id with _ | dd
  · simpa using hd
  · exact nn_getD (hE id dd h).2.1 hd

theorem nn_poison_getD {E : EquipCatalog} (hE : NonnegEquipCatalog E) (id : String)
    {d : ℚ} (hd : 0 ≤ d) : 0 ≤ (equipEffects E id).poisonChance.getD d := by
  unfold equipEffects
  rcases h : E id with _ | dd
  · simpa using hd
  · exact nn_getD (hE id dd h).2.2.1 hd

theorem nn_bleed_getD {E : EquipCatalog} (hE : NonnegEquipCatalog E) (id : String)
    {d : ℚ} (hd : 0 ≤ d) : 0 ≤ (equipEffects E id).bleedChance.getD d := by
  unfold equipEffects
  rcases h : E id with _ | dd
  · simpa using hd
  · exact nn_getD (hE id dd h).2.2.2 hd

theorem nn_dot_chances {E : EquipCatalog} (hE : NonnegEquipCatalog E) :
    ∀ (l : List String) (acc : ℚ × ℚ × Bool), 0 ≤ acc.1 → 0 ≤ acc.2.1 →
      0 ≤ (l.foldl (dot_accum E) acc).1 ∧ 0 ≤ (l.foldl (dot_accum E) acc).2.1 := by
  intro l
  induction l with
  | nil => intro acc h1 h2; simpa using ⟨h1, h2⟩
  | cons a t ih =>
      intro acc h1 h2
      rw [List.foldl_cons]
      have hstep : 0 ≤ (dot_accum E acc a).1 ∧ 0 ≤ (dot_accum E acc a).2.1 := by
        unfold dot_accum
        by_cases ha : a = "daybreak"
        · simp only [ha, if_true, if_pos]
          exact ⟨add_nonneg h1 (nn_burn_getD hE _ (by norm_num)), h2⟩
        · by_cases hb : a = "evernight"
          · simp only [ha, hb, if_false, if_true, if_pos, if_neg, not_false_iff]
            exact ⟨add_nonneg h1 (nn_burn_getD hE _ (by norm_num)), h2⟩
          · by_cases hv : a = "volatile_gem"
            · simp only [ha, hb, hv, if_false, if_true, if_pos, if_neg, not_false_iff]
              exact ⟨add_nonneg h1 (nn_burn_getD hE _ (by norm_num)),
                add_nonneg h2 (nn_poison_getD hE _ (by norm_num))⟩
            · simp only [ha, hb, hv, if_neg, not_false_iff, if_false]
              exact ⟨h1, h2⟩
      exact ih _ hstep.1 hstep.2

theorem nn_burn {W : WeaponCatalog} {E : EquipCatalog} {cfg : Config}
    (hE : NonnegEquipCatalog E) : 0 ≤ burn_chance_of W E cfg := by
  have h := nn_dot_chances hE cfg.equipment (0, 0, false) le_rfl le_rfl
  simp only [burn_chance_of, dot_chances]
  split_ifs <;> [nlinarith [h.1]; exact h.1]

theorem nn_poison {E : EquipCatalog} {cfg : Config} (hE : NonnegEquipCatalog E) :
    0 ≤ poison_chance_of E cfg := by
  have h := nn_dot_chances hE cfg.equipment (0, 0, false) le_rfl le_rfl
  exact h.2

theorem nn_bleed {E : EquipCatalog} {cfg : Config} (hE : NonnegEquipCatalog E) :
    0 ≤ bleed_chance_of E cfg := by
  unfold bleed_chance_of
  split_ifs
  · exact nn_bleed_getD hE _ (by norm_num)
  · exact le_rfl

set_option maxHeartbeats 2000000 in
theorem nn_dot {W : WeaponCatalog} {E : EquipCatalog} {cfg : Config}
    (hc : NonnegConfig cfg) (hW : NonnegWeaponCatalog W) (hE : NonnegEquipCatalog E) :
    0 ≤ dot_damage_of W E cfg := by
  obtain ⟨he1, he2, he3, he4⟩ := nn_sets hc hW hE
  have hb : 0 ≤ burn_chance_of W E cfg := nn_burn hE
  have hp : 0 ≤ poison_chance_of E cfg := nn_poison hE
  have hbl : 0 ≤ bleed_chance_of E cfg := nn_bleed hE
  have hminb : (0:ℚ) ≤ min (burn_chance_of W E cfg) 1 := le_min hb (by norm_num)
  have hminp : (0:ℚ) ≤ min (poison_chance_of E cfg) 1 := le_min hp (by norm_num)
  have hminbl : (0:ℚ) ≤ min (bleed_chance_of E cfg) 1 := le_min hbl (by norm_num)
  simp only [dot_damage_of]
  split_ifs <;> nlinarith

/-- C3: for non-negative numeric inputs (manual stats or attribute points)
and non-negative catalog stat/chance values, the post-crit, post-flat-
multiplier total damage is non-negative and the final damage (total + DoT)
is at least the total damage — the DoT pool and the flat multipliers never
reduce damage. -/
theorem claim_C3 (W : WeaponCatalog) (E : EquipCatalog) (cfg : Config)
    (hc : NonnegConfig cfg) (hW : NonnegWeaponCatalog W) (hE : NonnegEquipCatalog E) :
    0 ≤ (calculate_damage W E cfg).totalDamage ∧
    (calculate_damage W E cfg).totalDamage ≤ (calculate_damage W E cfg).finalDamage := by
  have ht : 0 ≤ total_damage_of W E cfg := nn_total hc hW hE
  have hd : 0 ≤ dot_damage_of W E cfg := nn_dot hc hW hE
  constructor
  · exact ht
  · show total_damage_of W E cfg ≤ final_damage_of W E cfg
    unfold final_damage_of
    nlinarith

theorem forall_of_lookup {β : Type} (P : β → Prop) :
    ∀ (l : List (String × β)), (∀ p ∈ l, P p.2) → ∀ id d, l.lookup id = some d → P d := by
  intro l
  induction l with
  | nil => intro _ id d hd; simp [List.lookup] at hd
  | cons p t ih =>
      intro h id d hd
      obtain ⟨k, v⟩ := p
      cases hk : id == k with
      | true =>
          have hv : v = d := by simpa [List.lookup, hk] using hd
          subst hv
          exact h (k, v) (List.mem_cons_self _ _)
      | false =>
          have hd' : t.lookup id = some d := by simpa [List.lookup, hk] using hd
          exact ih (fun p hp => h p (List.mem_cons_of_mem _ hp)) id d hd'

/-- C3 witness: the default manual config against the shipped catalogs
satisfies all the non-negativity hypotheses, and its total damage is
non-negative and bounded by its final damage. -/
theorem claim_C3_witness :
    0 ≤ (calculate_damage WEAPON_DB EQUIPMENT_DB {}).totalDamage ∧
    (calculate_damage WEAPON_DB EQUIPMENT_DB {}).totalDamage ≤
      (calculate_damage WEAPON_DB EQUIPMENT_DB {}).finalDamage :=
  claim_C3 WEAPON_DB EQUIPMENT_DB {}
    (by refine ⟨le_rfl, le_rfl, le_rfl, le_rfl, le_rfl, ?_, ?_, ?_, ?_, ?_⟩ <;> simp)
    (forall_of_lookup _ weaponList (by
      simp only [weaponList, List.forall_mem_cons, List.forall_mem_nil]
      norm_num [NonnegStats]))
    (forall_of_lookup _ equipmentList (by
      simp only [equipmentList, List.forall_mem_cons, List.forall_mem_nil]
      norm_num [NonnegStats, NonnegEffects]))


/-! ### Unknown-id helpers (shared) -/

theorem apply_equipment_unknown (E : EquipCatalog) (s : RunStats) (id : String)
    (h : E id = none) : apply_equipment E s id = s := by
  cases s
  simp [apply_equipment, equipStats, h, calculate_equipment_bonus]

theorem dot_accum_skip (E : EquipCatalog) (acc : ℚ × ℚ × Bool) (id : String)
    (h1 : id ≠ "daybreak") (h2 : id ≠ "evernight") (h3 : id ≠ "volatile_gem") :
    dot_accum E acc id = acc := by
  simp [dot_accum, h1, h2, h3]

/-- C8: an equipment id absent from the catalog (and not one of the
hard-coded effect-tested ids) is a no-op: removing its occurrence from the
equipment list leaves the whole resolver result unchanged; likewise a
selected weapon id absent from the weapon catalog behaves exactly like no
weapon at all.  In both cases the resolver still produces a result (the
embedding is total on these paths). -/
theorem claim_C8 (W : WeaponCatalog) (E : EquipCatalog) (cfg : Config) :
    (∀ id pre post, E id = none → id ∉ effect_checked_ids →
      cfg.equipment = pre ++ id :: post →
      calculate_damage W E cfg =
        calculate_damage W E { cfg with equipment := pre ++ post }) ∧
    (∀ w, cfg.selectedWeapon = some w → W w = none →
      calculate_damage W E cfg =
        calculate_damage W E { cfg with selectedWeapon := none }) := by
  constructor
  · intro id pre post hNone hNotEff heq
    have hset : equipSet E id = none := by simp [equipSet, hNone]
    have happ : ∀ s, apply_equipment E s id = s :=
      fun s => apply_equipment_unknown E s id hNone
    have hc : ¬("cursed_spellbook" = id) := fun h => hNotEff (by rw [← h]; decide)
    have hd : ¬("dual_sword" = id) := fun h => hNotEff (by rw [← h]; decide)
    have hdb : ¬(id = "daybreak") := fun h => hNotEff (by rw [h]; decide)
    have hev : ¬(id = "evernight") := fun h => hNotEff (by rw [h]; decide)
    have hvg : ¬(id = "volatile_gem") := fun h => hNotEff (by rw [h]; decide)
    have hvg' : ¬("volatile_gem" = id) := fun h => hvg h.symm
    have hqb : ¬("queenbee_crown" = id) := fun h => hNotEff (by rw [← h]; decide)
    have hbb : ¬("blood_butcher" = id) := fun h => hNotEff (by rw [← h]; decide)
    have hacc : ∀ acc, dot_accum E acc id = acc :=
      fun acc => dot_accum_skip E acc id (fun h => hdb h) (fun h => hev h) (fun h => hvg h)
    simp only [calculate_damage, stats_after_equipment, set_count, dot_chances,
      burn_chance_of, poison_chance_of, bleed_chance_of, total_damage_of, dot_damage_of,
      final_damage_of, base_damage_of, crit_base_damage_of, crit_rate_fraction,
      crit_damage_multiplier, expected_non_crit, expected_crit, avg_physical,
      eff_after_potions, eff_after_sets, total_crit_rate, total_crit_damage, heq]
    have hsw : stats_after_weapon W { cfg with equipment := pre ++ post } =
        stats_after_weapon W cfg := rfl
    have hdt : damage_type_of W { cfg with equipment := pre ++ post } =
        damage_type_of W cfg := rfl
    have htht : three_hit_weapon_type W { cfg with equipment := pre ++ post } =
        three_hit_weapon_type W cfg := rfl
    simp [List.foldl_append, List.foldl_cons, List.countP_append, List.countP_cons,
      List.mem_append, List.mem_cons, happ, hacc, hset, hc, hd, hdb, hev, hvg, hvg',
      hqb, hbb, hsw, hdt, htht]
  · intro w hw hWw
    simp only [calculate_damage, stats_after_equipment, stats_after_weapon, set_count,
      dot_chances, burn_chance_of, poison_chance_of, bleed_chance_of, total_damage_of,
      dot_damage_of, final_damage_of, base_damage_of, crit_base_damage_of,
      crit_rate_fraction, crit_damage_multiplier, expected_non_crit, expected_crit,
      avg_physical, eff_after_potions, eff_after_sets, total_crit_rate, total_crit_damage,
      damage_type_of, three_hit_weapon_type, base_run_stats, hw, hWw,
      calculate_equipment_bonus]
    simp

/-- C8 witness: the unknown id `mystery_charm` between Lantern and Copper
Sword is dropped without changing the result, and the unknown weapon id
`mystery_blade` behaves like no weapon. -/
theorem claim_C8_witness :
    calculate_damage WEAPON_DB EQUIPMENT_DB
      { selectedWeapon := some "mystery_blade",
        equipment := ["lantern", "mystery_charm", "copper_sword"] } =
      calculate_damage WEAPON_DB EQUIPMENT_DB
        { selectedWeapon := some "mystery_blade",
          equipment := ["lantern", "copper_sword"] } :=
  (claim_C8 WEAPON_DB EQUIPMENT_DB
    { selectedWeapon := some "mystery_blade",
      equipment := ["lantern", "mystery_charm", "copper_sword"] }).1
    "mystery_charm" ["lantern"] ["copper_sword"] (by decide) (by decide) rfl

/-! ### Catalog-agreement helpers (shared) -/

theorem agree_refl (o : Option EquipDef) : AgreeExceptEffects o o := by
  cases o <;> simp [AgreeExceptEffects]

theorem agree_equipStats {E1 E2 : EquipCatalog}
    (h : ∀ id, AgreeExceptEffects (E1 id) (E2 id)) (id : String) :
    equipStats E1 id = equipStats E2 id := by
  have hh := h id
  unfold equipStats
  rcases hA : E1 id with _ | a <;> rcases hB : E2 id with _ | b <;>
    rw [hA, hB] at hh <;> simp [AgreeExceptEffects] at hh ⊢ <;> exact hh.1

theorem agree_equipSet {E1 E2 : EquipCatalog}
    (h : ∀ id, AgreeExceptEffects (E1 id) (E2 id)) (id : String) :
    equipSet E1 id = equipSet E2 id := by
  have hh := h id
  unfold equipSet
  rcases hA : E1 id with _ | a <;> rcases hB : E2 id with _ | b <;>
    rw [hA, hB] at hh <;> simp [AgreeExceptEffects] at hh ⊢ <;> exact hh.2.1

/-- C10: the resolver reads an item's `special_effects` values only for the
ids daybreak, evernight, volatile_gem and queenbee_crown; two catalogs that
agree on those four entries and differ elsewhere at most in
`special_effects` (e.g. volcanic_axe's burn_chance, forest_dweller_axe's
bleed_chance, winter_spirit's freeze_chance, dual_sword's
double_damage_chance, cursed_spellbook's damage_multiplier) produce
identical results on every config — the cursed_spellbook, dual_sword and
blood_butcher effects are keyed on id presence with hardcoded constants. -/
theorem claim_C10 (W : WeaponCatalog) (E1 E2 : EquipCatalog) (cfg : Config)
    (h1 : ∀ id, AgreeExceptEffects (E1 id) (E2 id))
    (h2 : ∀ id ∈ effect_read_ids, E1 id = E2 id) :
    calculate_damage W E1 cfg = calculate_damage W E2 cfg := by
  have hstats : ∀ id, equipStats E1 id = equipStats E2 id := agree_equipStats h1
  have hsetkey : ∀ id, equipSet E1 id = equipSet E2 id := agree_equipSet h1
  have happly : ∀ s id, apply_equipment E1 s id = apply_equipment E2 s id := by
    intro s id
    unfold apply_equipment
    rw [hstats]
  have heff : ∀ id ∈ effect_read_ids, equipEffects E1 id = equipEffects E2 id := by
    intro id hid
    unfold equipEffects
    rw [h2 id hid]
  have haccum : ∀ acc id, dot_accum E1 acc id = dot_accum E2 acc id := by
    intro acc id
    unfold dot_accum
    by_cases hdb : id = "daybreak"
    · rw [heff id (by rw [hdb]; decide)]
    · by_cases hev : id = "evernight"
      · rw [heff id (by rw [hev]; decide)]
      · by_cases hvg : id = "volatile_gem"
        · rw [heff id (by rw [hvg]; decide)]
        · simp [hdb, hev, hvg]
  have hse : stats_after_equipment W E1 cfg = stats_after_equipment W E2 cfg := by
    unfold stats_after_equipment
    exact List.foldl_ext _ _ _ (fun s a _ => happly s a)
  have hsc : ∀ key, set_count W E1 cfg key = set_count W E2 cfg key := by
    intro key
    unfold set_count
    rw [List.countP_congr (fun a _ => by rw [hsetkey a])]
  have hdc : dot_chances E1 cfg = dot_chances E2 cfg := by
    unfold dot_chances
    exact List.foldl_ext _ _ _ (fun acc a _ => haccum acc a)
  have hblc : bleed_chance_of E1 cfg = bleed_chance_of E2 cfg := by
    unfold bleed_chance_of
    rw [heff "queenbee_crown" (by decide)]
  have havg : avg_physical W E1 cfg = avg_physical W E2 cfg := by
    unfold avg_physical; rw [hse]
  have hpot : eff_after_potions W E1 cfg = eff_after_potions W E2 cfg := by
    simp only [eff_after_potions]; rw [hse, havg]
  have hsets2 : eff_after_sets W E1 cfg = eff_after_sets W E2 cfg := by
    simp only [eff_after_sets]; rw [hpot, hsc "crimson", hsc "forest_dweller"]
  have htcr : total_crit_rate W E1 cfg = total_crit_rate W E2 cfg := by
    simp only [total_crit_rate]; rw [hse, hsc "wolf_howl"]
  have htcd : total_crit_damage W E1 cfg = total_crit_damage W E2 cfg := by
    unfold total_crit_damage; rw [hse]
  have hfrac : crit_rate_fraction W E1 cfg = crit_rate_fraction W E2 cfg := by
    unfold crit_rate_fraction; rw [htcr]
  have hmult : crit_damage_multiplier W E1 cfg = crit_damage_multiplier W E2 cfg := by
    unfold crit_damage_multiplier; rw [htcd]
  have hbase : base_damage_of W E1 cfg = base_damage_of W E2 cfg := by
    simp only [base_damage_of]; rw [hsets2]
  have hcbd : crit_base_damage_of W E1 cfg = crit_base_damage_of W E2 cfg := by
    simp only [crit_base_damage_of]; rw [hsets2]
  have henc : expected_non_crit W E1 cfg = expected_non_crit W E2 cfg := by
    unfold expected_non_crit; rw [hbase, hfrac]
  have hec : expected_crit W E1 cfg = expected_crit W E2 cfg := by
    unfold expected_crit; rw [hcbd, hmult, hfrac]
  have htd : total_damage_of W E1 cfg = total_damage_of W E2 cfg := by
    simp only [total_damage_of]; rw [henc, hec]
  have hburn : burn_chance_of W E1 cfg = burn_chance_of W E2 cfg := by
    simp only [burn_chance_of]; rw [hdc, hsc "flame"]
  have hpoison : poison_chance_of E1 cfg = poison_chance_of E2 cfg := by
    unfold poison_chance_of; rw [hdc]
  have hdot : dot_damage_of W E1 cfg = dot_damage_of W E2 cfg := by
    simp only [dot_damage_of]; rw [hsets2, hburn, hpoison, hblc, hdc]
  have hfd : final_damage_of W E1 cfg = final_damage_of W E2 cfg := by
    unfold final_damage_of; rw [htd, hdot]
  simp only [calculate_damage]
  rw [hse, havg, hsets2, hbase, hcbd, hfrac, hmult, henc, hec, htd, hdot, hfd, htcr,
    htcd, hburn, hblc, hpoison, hsc "flame", hsc "wolf_howl", hsc "crimson",
    hsc "queen_bee", hsc "explorer", hsc "forest_dweller", hsc "library_ruina",
    hsc "blessing"]

/-- C10 witness: changing volcanic_axe's burn_chance from 0.05 to 0.99 in
the catalog leaves the result unchanged for a config that equips
volcanic_axe together with a burn source (daybreak). -/
theorem claim_C10_witness :
    calculate_damage WEAPON_DB EQUIPMENT_DB
      { equipment := ["volcanic_axe", "daybreak"] } =
      calculate_damage WEAPON_DB
        (fun id => if id = "volcanic_axe" then
          some { stats := { atkMin := some 280, atkMax := some 280 },
                 specialEffects := { burnChance := some 0.99 },
                 setKey := some "wolf_howl", levelReq := 65 }
         else EQUIPMENT_DB id)
        { equipment := ["volcanic_axe", "daybreak"] } := by
  apply claim_C10
  · intro id
    by_cases h : id = "volcanic_axe"
    · rw [h]
      rw [if_pos rfl]
      have : EQUIPMENT_DB "volcanic_axe" =
          some { stats := { atkMin := some 280, atkMax := some 280 },
                 specialEffects := { burnChance := some 0.05 },
                 setKey := some "wolf_howl", levelReq := 65 } := rfl
      rw [this]
      exact ⟨rfl, rfl, rfl⟩
    · rw [if_neg h]
      exact agree_refl _
  · intro id hid
    have hne : id ≠ "volcanic_axe" := by
      intro h
      rw [h] at hid
      exact absurd hid (by decide)
    rw [if_neg hne]

/-! ### Lookup/key-uniqueness helpers (shared) -/

theorem lookup_of_mem_nodup {β : Type} :
    ∀ (l : List (String × β)), (l.map Prod.fst).Nodup → ∀ p ∈ l, l.lookup p.1 = some p.2 := by
  intro l
  induction l with
  | nil => intro _ p hp; simp at hp
  | cons q t ih =>
      intro hnd p hp
      obtain ⟨k, v⟩ := q
      rw [List.map_cons, List.nodup_cons] at hnd
      rcases List.mem_cons.mp hp with rfl | hpt
      · simp [List.lookup]
      · have hne : p.1 ≠ k := by
          intro h
          have hmem : p.1 ∈ t.map Prod.fst := List.mem_map_of_mem Prod.fst hpt
          rw [h] at hmem
          exact hnd.1 hmem
        have hbeq : (p.1 == k) = false := beq_eq_false_iff_ne.mpr hne
        simp only [List.lookup, hbeq]
        exact ih hnd.2 p hpt

/-- C9: every equipment id in every combination returned by the advanced
optimizer is a catalog item whose level requirement is at most the supplied
player level (the level filter is applied before subset enumeration, so an
over-levelled item can never appear in any returned combination). -/
theorem claim_C9 (base : Config) (optimizationType : String) :
    ((optimize_damage_advanced base optimizationType).all
      (fun sc => sc.ids.all (fun id => level_ok id base.playerLevel))) = true := by
  rw [List.all_eq_true]
  intro sc hsc
  rw [List.all_eq_true]
  intro id hid
  simp only [optimize_damage_advanced] at hsc
  have hsc1 : sc ∈ (List.sublistsLen 3 (available_equipment base.playerLevel)).map
      (score_combo base optimizationType) :=
    (List.mergeSort_perm _ _).subset (List.mem_of_mem_take hsc)
  obtain ⟨combo, hcombo, rfl⟩ := List.mem_map.mp hsc1
  have hid' : id ∈ combo := by simpa [score_combo] using hid
  have hsub : List.Sublist combo (available_equipment base.playerLevel) :=
    (List.mem_sublistsLen.mp hcombo).1
  have hav : id ∈ available_equipment base.playerLevel := hsub.subset hid'
  obtain ⟨p, hp, rfl⟩ := List.mem_map.mp hav
  have hfil := List.mem_filter.mp hp
  have hnd : (equipmentList.map Prod.fst).Nodup := by decide
  have hlook : equipmentList.lookup p.1 = some p.2 :=
    lookup_of_mem_nodup equipmentList hnd p hfil.1
  simp only [level_ok, EQUIPMENT_DB, hlook]
  exact hfil.2

end CFC
